import Mathlib

/-!
Shallow embedding of the subagent targeting and lifecycle-coordination engine of
`src/auto-reply/reply/commands-subagents.ts`: run-record resolution
(`resolveSubagentTarget`), the `list` ordering, and the `stop`, `log` and
`send`/`steer` handlers, together with theorems settling the specification
claims about them.

Conventions of the embedding:
- JavaScript strings are Lean `String`s; the JavaScript string operations used by the
  source (`trim`, `toLowerCase`, `startsWith`, `includes`, `slice`, `parseInt` on an
  all-digit token, `/^\d+$/`, `/\s+/` replacement) are re-implemented over the
  character list `String.data` so that all definitions evaluate inside the kernel.
- Epoch-millisecond timestamps are `Nat`; `Date.now()` becomes an explicit `now`
  argument threaded through each handler.
- Optional record fields become `Option`; JavaScript truthiness of an optional number
  (`undefined` and `0` falsy) and of an optional string (`undefined` and `""` falsy)
  is modelled explicitly where the source relies on it.
- Asynchronous collaborator calls (gateway, session store, registry) become an
  environment of call results plus an ordered trace of emitted side effects.
-/

namespace Subagents

/-! ## JavaScript string primitives -/

/-- JavaScript `String.prototype.trim`. -/
def jsTrim (s : String) : String :=
  ⟨((s.data.dropWhile Char.isWhitespace).reverse.dropWhile Char.isWhitespace).reverse⟩

/-- JavaScript `String.prototype.toLowerCase` (ASCII case mapping). -/
def jsToLower (s : String) : String := ⟨s.data.map Char.toLower⟩

/-- JavaScript `String.prototype.startsWith`. -/
def jsStartsWith (s pre : String) : Bool := pre.data.isPrefixOf s.data

/-- The test `/^\d+$/.test s` on a string already known to be non-empty. -/
def jsIsAllDigits (s : String) : Bool := s.data.all Char.isDigit

/-- `Number.parseInt(s, 10)` restricted to all-digit strings, where it agrees with the
base-10 value. (For digit strings so long that the JavaScript float overflows, both the
float and the exact value exceed every list length, which is the only way the resolver
consumes the number.) -/
def jsParseDigits (s : String) : Nat :=
  s.data.foldl (fun n c => n * 10 + (c.toNat - '0'.toNat)) 0

/-- JavaScript `s.slice(0, n)`. -/
def jsSlice (s : String) (n : Nat) : String := ⟨s.data.take n⟩

/-- JavaScript `s.includes(c)` for a single-character needle. -/
def jsContainsChar (s : String) (c : Char) : Bool := s.data.contains c

/-- Worker for `normalizeMessageText`: collapse whitespace runs into single spaces.
The flag records whether a whitespace run is pending between two words. -/
def normWsGo : Bool → List Char → List Char
  | _, [] => []
  | pendingSpace, c :: rest =>
    if c.isWhitespace then normWsGo true rest
    else (if pendingSpace then [' ', c] else [c]) ++ normWsGo false rest

/-- `normalizeMessageText` (lines 297-299): `text.replace(/\s+/g, " ").trim()`. -/
def normalizeMessageText (s : String) : String :=
  ⟨normWsGo false (s.data.dropWhile Char.isWhitespace)⟩

/-- Join a list of strings with a separator (`Array.prototype.join`). -/
def jsJoin (sep : String) (parts : List String) : String :=
  ⟨List.intercalate sep.data (parts.map String.data)⟩

/-! ## Data model -/

/-- `RECENT_WINDOW_MINUTES` (line 44). -/
def RECENT_WINDOW_MINUTES : Nat := 30

/-- One subagent run record (`SubagentRunRecord`), restricted to the fields the
targeting and lifecycle code reads. Timestamps are epoch milliseconds. -/
structure SubagentRunRecord where
  runId : String
  childSessionKey : String
  requesterSessionKey : String
  label : Option String
  task : String
  createdAt : Nat
  startedAt : Option Nat
  endedAt : Option Nat
  deriving Repr, DecidableEq

/-- Persisted session metadata (`SessionEntry`), restricted to the fields used here. -/
structure SessionEntry where
  sessionId : Option String
  sessionFile : Option String
  abortedLastRun : Bool
  updatedAt : Nat
  deriving Repr, DecidableEq

/-- JavaScript truthiness of the optional number `endedAt`: `undefined` and `0` are
falsy, so `!entry.endedAt` holds exactly when this is `false`. -/
def endedTruthy (r : SubagentRunRecord) : Bool :=
  match r.endedAt with
  | none => false
  | some t => t != 0

/-- `entry.endedAt ?? 0`. -/
def endedVal (r : SubagentRunRecord) : Nat := r.endedAt.getD 0

/-- The effective start time used for recency: `startedAt ?? createdAt`. -/
def effStart (r : SubagentRunRecord) : Nat := r.startedAt.getD r.createdAt

/-- Modelled from the spec: `sortSubagentRuns` lives in `subagents-utils.ts`, which is
not among the provided sources; per spec rule 2 it sorts runs "active-first, then most
recent start/creation time descending", with a stable, deterministic tie-break.
`runKeyLess a b` holds when `a` must come strictly before `b`. -/
def runKeyLess (a b : SubagentRunRecord) : Bool :=
  (!endedTruthy a && endedTruthy b)
    || ((endedTruthy a == endedTruthy b) && decide (effStart b < effStart a))

/-- Stable insertion of a run into an already-sorted list: the inserted run (earlier in
the snapshot) stays ahead of every element not strictly before it. -/
def insertRun (x : SubagentRunRecord) :
    List SubagentRunRecord → List SubagentRunRecord
  | [] => [x]
  | y :: rest => if runKeyLess y x then y :: insertRun x rest else x :: y :: rest

/-- Modelled from the spec: the stable active-first recency sort of a runs snapshot. -/
def sortSubagentRuns : List SubagentRunRecord → List SubagentRunRecord
  | [] => []
  | x :: rest => insertRun x (sortSubagentRuns rest)

/-- Modelled from the spec: `formatRunLabel` (display-formatter collaborator in
`subagents-utils.ts`, not among the provided sources) renders a run's display label;
the spec calls `label` the run's optional display name, so the label is used when
present and the run id otherwise. -/
def formatRunLabel (r : SubagentRunRecord) : String := r.label.getD r.runId

/-! ## Target resolver -/

/-- `SubagentTargetResolution` (lines 34-37): an optional matched run record and an
optional error text. -/
structure SubagentTargetResolution where
  entry : Option SubagentRunRecord
  error : Option String
  deriving Repr, DecidableEq

/-- The numeric ordering built inside `resolveSubagentTarget` (lines 227-232): sorted
active runs first, then sorted runs whose `endedAt` clears the 30-minute cutoff. -/
def resolveNumericOrder (now : Nat) (runs : List SubagentRunRecord) :
    List SubagentRunRecord :=
  let sorted := sortSubagentRuns runs
  sorted.filter (fun e => !endedTruthy e)
    ++ sorted.filter
        (fun e => endedTruthy e && decide (now - RECENT_WINDOW_MINUTES * 60000 ≤ endedVal e))

/-- `resolveSubagentTarget` (lines 215-269). `now` stands for `Date.now()`; a `none`
token models an `undefined` argument. -/
def resolveSubagentTarget (now : Nat) (runs : List SubagentRunRecord)
    (token : Option String) : SubagentTargetResolution :=
  let trimmed := jsTrim (token.getD "")
  if trimmed = "" then { entry := none, error := some "Missing subagent id." }
  else if trimmed = "last" then
    { entry := (sortSubagentRuns runs).head?, error := none }
  else
    let numericOrder := resolveNumericOrder now runs
    if jsIsAllDigits trimmed then
      let idx := jsParseDigits trimmed
      if idx = 0 ∨ numericOrder.length < idx then
        { entry := none, error := some ("Invalid subagent index: " ++ trimmed) }
      else { entry := numericOrder[idx - 1]?, error := none }
    else if jsContainsChar trimmed ':' then
      match runs.find? (fun e => e.childSessionKey == trimmed) with
      | some m => { entry := some m, error := none }
      | none =>
        { entry := none, error := some ("Unknown subagent session: " ++ trimmed) }
    else
      let lowered := jsToLower trimmed
      match runs.filter (fun e => jsToLower (formatRunLabel e) == lowered) with
      | [e] => { entry := some e, error := none }
      | _ :: _ :: _ =>
        { entry := none, error := some ("Ambiguous subagent label: " ++ trimmed) }
      | [] =>
        match runs.filter (fun e => jsStartsWith (jsToLower (formatRunLabel e)) lowered) with
        | [e] => { entry := some e, error := none }
        | _ :: _ :: _ =>
          { entry := none,
            error := some ("Ambiguous subagent label prefix: " ++ trimmed) }
        | [] =>
          match runs.filter (fun e => jsStartsWith e.runId trimmed) with
          | [e] => { entry := some e, error := none }
          | _ :: _ :: _ =>
            { entry := none, error := some ("Ambiguous run id prefix: " ++ trimmed) }
          | [] =>
            { entry := none, error := some ("Unknown subagent id: " ++ trimmed) }

/-! ## The `list` ordering -/

/-- The active bucket of the `list` verb (line 429): sorted runs with falsy `endedAt`. -/
def listActiveRuns (runs : List SubagentRunRecord) : List SubagentRunRecord :=
  (sortSubagentRuns runs).filter (fun e => !endedTruthy e)

/-- The recently-ended bucket of the `list` verb (line 446). -/
def listRecentRuns (now : Nat) (runs : List SubagentRunRecord) :
    List SubagentRunRecord :=
  (sortSubagentRuns runs).filter
    (fun e => endedTruthy e && decide (now - RECENT_WINDOW_MINUTES * 60000 ≤ endedVal e))

/-- The numbered association rendered by `list` (lines 427-463): one counter starting at
1 numbers the active lines and keeps counting through the recently-ended lines. -/
def listNumberedRuns (now : Nat) (runs : List SubagentRunRecord) :
    List (Nat × SubagentRunRecord) :=
  (listActiveRuns runs ++ listRecentRuns now runs).enumFrom 1

/-! ## Specification-side definitions (following the claims' words) -/

/-- The numeric ordering exactly as claim C2 words it: all runs with **no** `endedAt`
in recency order, then runs whose `endedAt` lies within the last 30 minutes. -/
def numericOrderingSpec (now : Nat) (runs : List SubagentRunRecord) :
    List SubagentRunRecord :=
  (sortSubagentRuns runs).filter (fun e => e.endedAt.isNone)
    ++ (sortSubagentRuns runs).filter
        (fun e => e.endedAt.isSome
          && decide (now - RECENT_WINDOW_MINUTES * 60000 ≤ endedVal e))

/-- Well-formed snapshots: an ended run carries a positive epoch-millisecond timestamp
(the spec's `endedAt` is the real end time of a run, never the epoch itself). -/
def WellFormedRuns (runs : List SubagentRunRecord) : Prop :=
  ∀ r ∈ runs, r.endedAt ≠ some 0

/-! ## Basic lemmas about the sort and the orderings -/

theorem mem_insertRun {x a : SubagentRunRecord} :
    ∀ {l : List SubagentRunRecord}, a ∈ insertRun x l ↔ a = x ∨ a ∈ l := by
  intro l
  induction l with
  | nil => simp [insertRun]
  | cons y rest ih =>
    by_cases h : runKeyLess y x
    · simp only [insertRun, if_pos h, List.mem_cons, ih]
      tauto
    · simp only [insertRun, if_neg h, List.mem_cons]

theorem mem_sortSubagentRuns {a : SubagentRunRecord} :
    ∀ {l : List SubagentRunRecord}, a ∈ sortSubagentRuns l ↔ a ∈ l := by
  intro l
  induction l with
  | nil => simp [sortSubagentRuns]
  | cons x rest ih =>
    simp only [sortSubagentRuns, mem_insertRun, ih, List.mem_cons]

theorem endedTruthy_of_wf {r : SubagentRunRecord} (h : r.endedAt ≠ some 0) :
    endedTruthy r = r.endedAt.isSome := by
  unfold endedTruthy
  cases het : r.endedAt with
  | none => rfl
  | some t =>
    cases t with
    | zero => exact absurd het h
    | succ n => simp

theorem resolveNumericOrder_eq_spec (now : Nat) (runs : List SubagentRunRecord)
    (hWF : WellFormedRuns runs) :
    resolveNumericOrder now runs = numericOrderingSpec now runs := by
  unfold resolveNumericOrder numericOrderingSpec
  have hmem : ∀ r ∈ sortSubagentRuns runs, endedTruthy r = r.endedAt.isSome := by
    intro r hr
    exact endedTruthy_of_wf (hWF r (mem_sortSubagentRuns.mp hr))
  refine congrArg₂ (· ++ ·) ?_ ?_
  · refine List.filter_congr ?_
    intro r hr
    rw [hmem r hr]
    cases r.endedAt <;> simp
  · refine List.filter_congr ?_
    intro r hr
    rw [hmem r hr]

/-! ## Transcript messages -/

/-- A transcript message, restricted to a role and plain string content (the
array-of-text-blocks content form is not exercised by the verified claims). -/
structure ChatMessage where
  role : String
  content : String
  deriving Repr, DecidableEq

/-- `extractMessageText` (lines 301-332), string-content case. `sanitizeTextContent`
(sessions-helpers collaborator, not among the provided sources and not described by the
spec) is modelled as the identity on plain text. -/
def extractMessageText (m : ChatMessage) : Option (String × String) :=
  let normalized := normalizeMessageText m.content
  if normalized = "" then none else some (m.role, normalized)

/-- `formatLogLines` (lines 334-345). -/
def formatLogLines (messages : List ChatMessage) : List String :=
  messages.filterMap (fun m =>
    (extractMessageText m).map (fun p =>
      (if p.1 = "assistant" then "Assistant" else "User") ++ ": " ++ p.2))

/-- Modelled from the spec: `stripToolMessages` (sessions-helpers collaborator, not
among the provided sources) drops tool-call messages; a message is a tool-call message
exactly when its role is `"tool"`. -/
def stripToolMessages (messages : List ChatMessage) : List ChatMessage :=
  messages.filter (fun m => !(m.role == "tool"))

/-- Modelled from the spec: `extractAssistantText` (sessions-helpers collaborator, not
among the provided sources) extracts the assistant utterance carried by one message:
its normalized text when the role is `assistant`, and nothing otherwise. -/
def extractAssistantText (m : ChatMessage) : Option String :=
  if m.role = "assistant" then
    let t := normalizeMessageText m.content
    if t = "" then none else some t
  else none

/-! ## Side effects and handler environments -/

/-- The externally visible side effects a handler can emit, in program order.
`gatewayDispatch` also carries the constant parameters `deliver: false`, the internal
message channel and the subagent lane in the source; they are omitted here because no
claim distinguishes them. -/
inductive Effect where
  | abortRun (sessionId : String)
  | clearQueues (childKey : String) (sessionId : Option String)
  | storeUpdate (storePath : String) (childKey : String) (entry : SessionEntry)
  | stopForRequester (requesterSessionKey : String)
  | markForSteerRestart (runId : String)
  | gatewayDispatch (message : String) (sessionKey : String) (idempotencyKey : String)
  | replaceAfterSteer (previousRunId : String) (nextRunId : String)
      (fallback : SubagentRunRecord)
  | gatewayWait (runId : String) (timeoutMs : Nat)
  | gatewayHistory (sessionKey : String) (limit : Nat)
  deriving Repr, DecidableEq

/-- Environment of the `stop` handler: the clock and the session store as read by
`loadSubagentSessionEntry`. -/
structure StopEnv where
  now : Nat
  storePath : String
  store : String → Option SessionEntry

/-- The `stop` verb (lines 480-539). `killAlias` selects the `/kill` usage string.
The reply component is `none` where the source returns `{ shouldContinue: false }`
without a reply. -/
def handleStop (env : StopEnv) (killAlias : Bool) (requesterKey : String)
    (runs : List SubagentRunRecord) (target : Option String) :
    Option String × List Effect :=
  match target with
  | none =>
    (some (if killAlias then "Usage: /kill <id|#|all>"
           else "Usage: /subagents stop <id|#|all>"), [])
  | some t =>
    if t = "all" ∨ t = "*" then (none, [Effect.stopForRequester requesterKey])
    else
      let resolved := resolveSubagentTarget env.now runs (some t)
      match resolved.entry with
      | none => (some ("⚠️ " ++ resolved.error.getD "Unknown subagent."), [])
      | some e =>
        if endedTruthy e then
          (some (formatRunLabel e ++ " is already finished."), [])
        else
          let childKey := e.childSessionKey
          let entry := env.store childKey
          let sessionId := entry.bind (fun en => en.sessionId)
          let abortEffects :=
            match sessionId with
            | some s => if s = "" then [] else [Effect.abortRun s]
            | none => []
          let storeEffects :=
            match entry with
            | some en =>
              [Effect.storeUpdate env.storePath childKey
                { en with abortedLastRun := true, updatedAt := env.now }]
            | none => []
          (none,
            abortEffects
              ++ [Effect.clearQueues childKey sessionId]
              ++ storeEffects
              ++ [Effect.stopForRequester childKey])

/-- Result of the dispatch gateway call (lines 668-689): a thrown error message, or a
response whose `runId` field may be absent. -/
inductive DispatchResult where
  | fail (message : String)
  | ok (runId : Option String)
  deriving Repr, DecidableEq

/-- Environment of the `send`/`steer` handler: the clock, the session store, the fresh
idempotency key generated by `crypto.randomUUID()`, and the collaborator call results. -/
structure SendEnv where
  now : Nat
  store : String → Option SessionEntry
  idempotencyKey : String
  dispatch : DispatchResult
  waitStatus : Option String
  waitError : Option String
  history : List ChatMessage

/-- The run id used after dispatch (lines 666-684): the response `runId` when it is a
truthy (non-empty) string, else the caller-generated idempotency key. -/
def usedRunId (responseRunId : Option String) (idempotencyKey : String) : String :=
  match responseRunId with
  | some s => if s = "" then idempotencyKey else s
  | none => idempotencyKey

/-- The backend session id the `send`/`steer` verb derives for the resolved child
(lines 641-648): the stored `sessionId` when it is a string with non-empty trim. -/
def sendTargetSessionId (env : SendEnv) (e : SubagentRunRecord) : Option String :=
  match (env.store e.childSessionKey).bind (fun en => en.sessionId) with
  | some s => if jsTrim s = "" then none else some (jsTrim s)
  | none => none

/-- The `send`/`steer` verb (lines 613-741). `message` is the already joined and trimmed
message text; a `none` target models a missing token. -/
def handleSend (env : SendEnv) (steerRequested : Bool)
    (runs : List SubagentRunRecord) (target : Option String) (message : String) :
    Option String × List Effect :=
  let usage := if steerRequested then "Usage: /subagents steer <id|#> <message>"
               else "Usage: /subagents send <id|#> <message>"
  match target with
  | none => (some usage, [])
  | some t =>
    if message = "" then (some usage, [])
    else
      let resolved := resolveSubagentTarget env.now runs (some t)
      match resolved.entry with
      | none => (some ("⚠️ " ++ resolved.error.getD "Unknown subagent."), [])
      | some e =>
        if endedTruthy e then
          (some (formatRunLabel e ++ " is already finished."), [])
        else
          let targetSessionId := sendTargetSessionId env e
          let steerEffects :=
            if steerRequested then
              [Effect.markForSteerRestart e.runId]
                ++ (match targetSessionId with
                    | some s => [Effect.abortRun s]
                    | none => [])
                ++ [Effect.clearQueues e.childSessionKey targetSessionId]
            else []
          let dispatchEffects :=
            [Effect.gatewayDispatch message e.childSessionKey env.idempotencyKey]
          match env.dispatch with
          | DispatchResult.fail msg =>
            (some ("send failed: " ++ msg), steerEffects ++ dispatchEffects)
          | DispatchResult.ok responseRunId =>
            let runId := usedRunId responseRunId env.idempotencyKey
            if steerRequested then
              (some ("steered " ++ formatRunLabel e
                  ++ " (run " ++ jsSlice runId 8 ++ ")."),
                steerEffects ++ dispatchEffects
                  ++ [Effect.replaceAfterSteer e.runId runId e])
            else
              let waitEffects := [Effect.gatewayWait runId 30000]
              if env.waitStatus = some "timeout" then
                (some ("⏳ Subagent still running (run " ++ jsSlice runId 8 ++ ")."),
                  steerEffects ++ dispatchEffects ++ waitEffects)
              else if env.waitStatus = some "error" then
                (some ("⚠️ Subagent error: " ++ env.waitError.getD "unknown error"
                    ++ " (run " ++ jsSlice runId 8 ++ ")."),
                  steerEffects ++ dispatchEffects ++ waitEffects)
              else
                let filtered := stripToolMessages env.history
                let replyText := filtered.getLast?.bind extractAssistantText
                (some (replyText.getD
                    ("✅ Sent to " ++ formatRunLabel e
                      ++ " (run " ++ jsSlice runId 8 ++ ").")),
                  steerEffects ++ dispatchEffects ++ waitEffects
                    ++ [Effect.gatewayHistory e.childSessionKey 50])

/-- The history limit computed by the `log` verb (lines 590-591): the first all-digit
token among **all** remaining tokens — the target token itself included — parsed and
clamped to `[1, 200]`, defaulting to 20 when no token is all digits. -/
def logLimit (restTokens : List String) : Nat :=
  match restTokens.find? (fun tok => tok != "" && jsIsAllDigits tok) with
  | some tok => min 200 (max 1 (jsParseDigits tok))
  | none => 20

/-- The `tools` flag of the `log` verb (line 589): any remaining token — the target
token itself included — case-insensitively equal to `"tools"`. -/
def logIncludeTools (restTokens : List String) : Bool :=
  restTokens.any (fun tok => jsToLower tok == "tools")

/-- Environment of the `log` verb: the clock and the fetched history. -/
structure LogEnv where
  now : Nat
  history : List ChatMessage

/-- The `log` verb (lines 584-611). -/
def handleLog (env : LogEnv) (runs : List SubagentRunRecord)
    (restTokens : List String) : Option String × List Effect :=
  match restTokens.head? with
  | none => (some "📜 Usage: /subagents log <id|#> [limit]", [])
  | some target =>
    let includeTools := logIncludeTools restTokens
    let limit := logLimit restTokens
    let resolved := resolveSubagentTarget env.now runs (some target)
    match resolved.entry with
    | none => (some ("⚠️ " ++ resolved.error.getD "Unknown subagent."), [])
    | some e =>
      let filtered := if includeTools then env.history
                      else stripToolMessages env.history
      let lines := formatLogLines filtered
      let header := "📜 Subagent log: " ++ formatRunLabel e
      (some (if lines.isEmpty then header ++ "\n(no messages)"
             else jsJoin "\n" (header :: lines)),
        [Effect.gatewayHistory e.childSessionKey limit])

/-! ## Claim-side definitions for the corrected claims -/

/-- The history limit as claim C7 words it: only a bare integer supplied **after** the
target token counts, defaulting to 20. -/
def specLogLimit (restTokens : List String) : Nat :=
  match (restTokens.drop 1).find? (fun tok => tok != "" && jsIsAllDigits tok) with
  | some tok => min 200 (max 1 (jsParseDigits tok))
  | none => 20

/-- The `tools` switch as claim C7 words it: a `tools` argument supplied after the
target token. -/
def specLogIncludeTools (restTokens : List String) : Bool :=
  (restTokens.drop 1).any (fun tok => jsToLower tok == "tools")

/-- The reply source as claim C8 words it: the utterance of the most recent
assistant-role message anywhere in the fetched history. -/
def mostRecentAssistantUtterance (messages : List ChatMessage) : Option String :=
  ((messages.filter (fun m => m.role == "assistant")).getLast?).bind extractAssistantText

/-! ## Helper lemmas -/

theorem string_ne_empty_append (a b : String) (ha : a ≠ "") : a ++ b ≠ "" := by
  intro h
  apply ha
  have hd : a.data ++ b.data = [] := congrArg String.data h
  have hnil : a.data = [] := (List.append_eq_nil.mp hd).1
  cases a
  simp_all

/-- Characterization of the all-digit branch of the resolver. -/
theorem resolve_digits_eq (now : Nat) (runs : List SubagentRunRecord)
    (t : String) (i : Nat)
    (htrim : jsTrim t = t) (hne : t ≠ "") (hdig : jsIsAllDigits t = true)
    (hparse : jsParseDigits t = i) :
    resolveSubagentTarget now runs (some t) =
      if i = 0 ∨ (resolveNumericOrder now runs).length < i then
        { entry := none, error := some ("Invalid subagent index: " ++ t) }
      else { entry := (resolveNumericOrder now runs)[i - 1]?, error := none } := by
  have hlast : t ≠ "last" := by
    intro h
    subst h
    exact absurd hdig (by decide)
  simp [resolveSubagentTarget, htrim, hne, hlast, hdig, hparse]

/-! ## Sample records used by the witnesses -/

/-- A currently active run. -/
def runActive : SubagentRunRecord :=
  { runId := "run-a", childSessionKey := "agent:childA", requesterSessionKey := "agent:main",
    label := some "Scout", task := "scan the repo", createdAt := 5, startedAt := some 6,
    endedAt := none }

/-- A run that ended recently (relative to `now = 1000`). -/
def runEnded : SubagentRunRecord :=
  { runId := "run-b", childSessionKey := "agent:childB", requesterSessionKey := "agent:main",
    label := some "Digger", task := "dig", createdAt := 1, startedAt := some 2,
    endedAt := some 900 }

/-! ## C1 — list/index agreement -/

/-- C1: for every runs snapshot (at one clock reading `now`) and every in-range index
`i` presented as an all-digit token, numeric-index resolution returns exactly the run
rendered as the `i`-th numbered line by the `list` verb: the resolver's numeric ordering
is literally the `list` partition (active runs, then runs ended within the last 30
minutes, in the same sorted order), and `list`'s numbering — which continues from the
active bucket into the recent bucket — pairs number `i` with that same run. -/
theorem claim1_list_index_agreement (now : Nat) (runs : List SubagentRunRecord)
    (t : String) (i : Nat)
    (htrim : jsTrim t = t) (hne : t ≠ "") (hdig : jsIsAllDigits t = true)
    (hparse : jsParseDigits t = i)
    (h1 : 1 ≤ i) (h2 : i ≤ (listNumberedRuns now runs).length) :
    resolveNumericOrder now runs = listActiveRuns runs ++ listRecentRuns now runs ∧
    ∃ r, (resolveSubagentTarget now runs (some t)).entry = some r ∧
      (listNumberedRuns now runs)[i - 1]? = some (i, r) := by
  have horder : resolveNumericOrder now runs
      = listActiveRuns runs ++ listRecentRuns now runs := rfl
  refine ⟨horder, ?_⟩
  have hres := resolve_digits_eq now runs t i htrim hne hdig hparse
  have hlen : (listNumberedRuns now runs).length
      = (resolveNumericOrder now runs).length := by
    simp [listNumberedRuns, List.enumFrom_length, horder]
  have h2' : i ≤ (resolveNumericOrder now runs).length := by omega
  have hcond : ¬ (i = 0 ∨ (resolveNumericOrder now runs).length < i) := by omega
  have hidx : i - 1 < (resolveNumericOrder now runs).length := by omega
  refine ⟨(resolveNumericOrder now runs)[i - 1], ?_, ?_⟩
  · rw [hres, if_neg hcond]
    exact List.getElem?_eq_getElem hidx
  · rw [listNumberedRuns, List.getElem?_enumFrom]
    rw [show (listActiveRuns runs ++ listRecentRuns now runs) = resolveNumericOrder now runs
      from horder.symm]
    rw [List.getElem?_eq_getElem hidx]
    simp only [Option.map_some']
    have hadd : 1 + (i - 1) = i := by omega
    rw [hadd]

/-- Witness for C1 at a concrete snapshot: one active run, token `"1"`. -/
theorem claim1_witness :
    resolveNumericOrder 0 [runActive]
      = listActiveRuns [runActive] ++ listRecentRuns 0 [runActive] ∧
    ∃ r, (resolveSubagentTarget 0 [runActive] (some "1")).entry = some r ∧
      (listNumberedRuns 0 [runActive])[0]? = some (1, r) := by
  have h := claim1_list_index_agreement 0 [runActive] "1" 1 (by decide) (by decide)
    (by decide) (by decide) (by decide) (by decide)
  simpa using h

/-! ## C2 — numeric-index resolution -/

/-- C2: for every well-formed runs snapshot, an all-digit token parsing to `i` is a
1-based index into the ordering of all active runs (no `endedAt`) in recency order
followed by runs whose `endedAt` lies within the last 30 minutes, in recency order.
Index 0 and any index beyond that ordering's length yield an error naming the offending
token (in particular on the empty snapshot every index is out of range — no crash). -/
theorem claim2_numeric_index_resolution (now : Nat) (runs : List SubagentRunRecord)
    (t : String) (i : Nat) (hWF : WellFormedRuns runs)
    (htrim : jsTrim t = t) (hne : t ≠ "") (hdig : jsIsAllDigits t = true)
    (hparse : jsParseDigits t = i) :
    (i = 0 ∨ (numericOrderingSpec now runs).length < i →
      resolveSubagentTarget now runs (some t)
        = { entry := none, error := some ("Invalid subagent index: " ++ t) }) ∧
    (1 ≤ i → i ≤ (numericOrderingSpec now runs).length →
      ∃ r, resolveSubagentTarget now runs (some t)
          = { entry := some r, error := none } ∧
        (numericOrderingSpec now runs)[i - 1]? = some r) := by
  have hspec := resolveNumericOrder_eq_spec now runs hWF
  have hres := resolve_digits_eq now runs t i htrim hne hdig hparse
  rw [hspec] at hres
  constructor
  · intro h
    rw [hres, if_pos h]
  · intro h1 h2
    have hcond : ¬ (i = 0 ∨ (numericOrderingSpec now runs).length < i) := by omega
    have hidx : i - 1 < (numericOrderingSpec now runs).length := by omega
    refine ⟨(numericOrderingSpec now runs)[i - 1], ?_, List.getElem?_eq_getElem hidx⟩
    rw [hres, if_neg hcond, List.getElem?_eq_getElem hidx]

/-- Witness for C2: `resolve([], "1")` is the out-of-range error, not a crash. -/
theorem claim2_witness :
    resolveSubagentTarget 0 [] (some "1")
      = { entry := none, error := some ("Invalid subagent index: " ++ "1") } := by
  exact (claim2_numeric_index_resolution 0 [] "1" 1 (by simp [WellFormedRuns])
    (by decide) (by decide) (by decide) (by decide)).1 (by decide)

/-! ## C9 — `last` on an empty snapshot, and resolver totality otherwise -/

/-- C9: resolving the literal token `last` against an empty snapshot returns a
resolution with neither a run record nor an error (the sorted list is empty and no
error branch is taken), so the `stop`, `send`/`steer` and `log` handlers all fall back
to the generic `Unknown subagent.` reply with no side effects; for every token whose
trimmed form is not `last`, the resolver returns exactly one of a run record or a
non-empty error string. -/
theorem claim9_resolver_totality :
    (resolveSubagentTarget 0 [] (some "last")
      = { entry := none, error := none }) ∧
    (∀ env killAlias requesterKey,
      handleStop env killAlias requesterKey [] (some "last")
        = (some "⚠️ Unknown subagent.", [])) ∧
    (∀ env steer msg, msg ≠ "" →
      handleSend env steer [] (some "last") msg
        = (some "⚠️ Unknown subagent.", [])) ∧
    (∀ env, handleLog env [] ["last"] = (some "⚠️ Unknown subagent.", [])) ∧
    (∀ now runs token, (∀ s, token = some s → jsTrim s ≠ "last") →
      (∃ r, resolveSubagentTarget now runs token
          = { entry := some r, error := none }) ∨
      (∃ msg, resolveSubagentTarget now runs token
          = { entry := none, error := some msg } ∧ msg ≠ "")) := by
  refine ⟨by decide, ?_, ?_, ?_, ?_⟩
  · intro env killAlias requesterKey
    rfl
  · intro env steer msg hmsg
    cases steer <;>
      simp [handleSend, hmsg, resolveSubagentTarget, sortSubagentRuns,
        show jsTrim "last" = "last" from by decide,
        show ("last" : String) ≠ "" from by decide]
  · intro env
    rfl
  · intro now runs token hlast
    have hlast' : jsTrim (token.getD "") ≠ "last" := by
      cases token with
      | none => decide
      | some s => exact hlast s rfl
    by_cases h0 : jsTrim (token.getD "") = ""
    · exact Or.inr ⟨"Missing subagent id.", by simp [resolveSubagentTarget, h0],
        by decide⟩
    · by_cases hd : jsIsAllDigits (jsTrim (token.getD "")) = true
      · by_cases hidx : jsParseDigits (jsTrim (token.getD "")) = 0 ∨
            (resolveNumericOrder now runs).length
              < jsParseDigits (jsTrim (token.getD ""))
        · refine Or.inr ⟨"Invalid subagent index: " ++ jsTrim (token.getD ""), ?_, ?_⟩
          · simp [resolveSubagentTarget, h0, hlast', hd, hidx]
          · exact string_ne_empty_append _ _ (by decide)
        · have hne0 : jsParseDigits (jsTrim (token.getD "")) ≠ 0 := by tauto
          have hlen : ¬ ((resolveNumericOrder now runs).length
              < jsParseDigits (jsTrim (token.getD ""))) := by tauto
          have hlt : jsParseDigits (jsTrim (token.getD "")) - 1
              < (resolveNumericOrder now runs).length := by omega
          refine Or.inl
            ⟨(resolveNumericOrder now runs)[jsParseDigits (jsTrim (token.getD "")) - 1],
              ?_⟩
          simp [resolveSubagentTarget, h0, hlast', hd, hidx,
            List.getElem?_eq_getElem hlt]
      · by_cases hc : jsContainsChar (jsTrim (token.getD "")) ':' = true
        · rcases hfind : runs.find?
              (fun e => e.childSessionKey == jsTrim (token.getD "")) with _ | m
          · refine Or.inr ⟨"Unknown subagent session: " ++ jsTrim (token.getD ""),
              ?_, string_ne_empty_append _ _ (by decide)⟩
            simp [resolveSubagentTarget, h0, hlast', hd, hc, hfind]
          · exact Or.inl ⟨m, by simp [resolveSubagentTarget, h0, hlast', hd, hc, hfind]⟩
        · rcases hbl : runs.filter
              (fun e => jsToLower (formatRunLabel e)
                == jsToLower (jsTrim (token.getD ""))) with _ | ⟨e1, _ | ⟨e2, tl⟩⟩
          · rcases hbp : runs.filter
                (fun e => jsStartsWith (jsToLower (formatRunLabel e))
                  (jsToLower (jsTrim (token.getD "")))) with _ | ⟨f1, _ | ⟨f2, tl2⟩⟩
            · rcases hbr : runs.filter
                  (fun e => jsStartsWith e.runId (jsTrim (token.getD "")))
                  with _ | ⟨g1, _ | ⟨g2, tl3⟩⟩
              · refine Or.inr ⟨"Unknown subagent id: " ++ jsTrim (token.getD ""),
                  ?_, string_ne_empty_append _ _ (by decide)⟩
                simp [resolveSubagentTarget, h0, hlast', hd, hc, hbl, hbp, hbr]
              · exact Or.inl ⟨g1,
                  by simp [resolveSubagentTarget, h0, hlast', hd, hc, hbl, hbp, hbr]⟩
              · refine Or.inr ⟨"Ambiguous run id prefix: " ++ jsTrim (token.getD ""),
                  ?_, string_ne_empty_append _ _ (by decide)⟩
                simp [resolveSubagentTarget, h0, hlast', hd, hc, hbl, hbp, hbr]
            · exact Or.inl ⟨f1,
                by simp [resolveSubagentTarget, h0, hlast', hd, hc, hbl, hbp]⟩
            · refine Or.inr
                ⟨"Ambiguous subagent label prefix: " ++ jsTrim (token.getD ""),
                  ?_, string_ne_empty_append _ _ (by decide)⟩
              simp [resolveSubagentTarget, h0, hlast', hd, hc, hbl, hbp]
          · exact Or.inl ⟨e1,
              by simp [resolveSubagentTarget, h0, hlast', hd, hc, hbl]⟩
          · refine Or.inr ⟨"Ambiguous subagent label: " ++ jsTrim (token.getD ""),
              ?_, string_ne_empty_append _ _ (by decide)⟩
            simp [resolveSubagentTarget, h0, hlast', hd, hc, hbl]

/-- Witness for C9: an unknown alphabetic token on the empty snapshot lands in the
"exactly one of entry/error" case. -/
theorem claim9_witness :
    (∃ r, resolveSubagentTarget 0 [] (some "zz")
        = { entry := some r, error := none }) ∨
    (∃ msg, resolveSubagentTarget 0 [] (some "zz")
        = { entry := none, error := some msg } ∧ msg ≠ "") := by
  exact claim9_resolver_totality.2.2.2.2 0 [] (some "zz")
    (by intro s hs; cases hs; decide)

/-! ## C3 — label matching precedence and ambiguity -/

/-- An active run labelled `Scout2`. -/
def runScout2 : SubagentRunRecord :=
  { runId := "run-c", childSessionKey := "agent:childC", requesterSessionKey := "agent:main",
    label := some "Scout2", task := "second scout", createdAt := 3, startedAt := some 4,
    endedAt := none }

/-- An active run labelled `Scouting`. -/
def runScouting : SubagentRunRecord :=
  { runId := "run-d", childSessionKey := "agent:childD", requesterSessionKey := "agent:main",
    label := some "Scouting", task := "scouting", createdAt := 3, startedAt := some 4,
    endedAt := none }

/-- A run whose display label is the literal word `last`. -/
def runLabelledLast : SubagentRunRecord :=
  { runId := "run-l", childSessionKey := "agent:childL", requesterSessionKey := "agent:main",
    label := some "last", task := "latest", createdAt := 1, startedAt := some 2,
    endedAt := some 900 }

/-- A run whose display label carries a leading space. -/
def runSpaceyLabel : SubagentRunRecord :=
  { runId := "zzz", childSessionKey := "agent:childS", requesterSessionKey := "agent:main",
    label := some " alpha", task := "padded", createdAt := 1, startedAt := some 2,
    endedAt := none }

/-- Counterexample to C3 as frozen. The claim quantifies over every non-numeric,
colon-free token, but two such tokens escape the label rules: (1) the literal token
`last` resolves by recency even when exactly one run's display label equals it — here
the snapshot `[runActive, runLabelledLast]` has exactly one label equal to `last`
(on `runLabelledLast`), yet resolution returns `runActive`; (2) a token with
surrounding whitespace is trimmed before matching, so the unique run whose label
equals the raw token ` alpha` is not found at all. -/
theorem claim3_counterexample :
    (resolveSubagentTarget 1000 [runActive, runLabelledLast] (some "last")
        = { entry := some runActive, error := none } ∧
      [runActive, runLabelledLast].filter
          (fun r => jsToLower (formatRunLabel r) == jsToLower "last")
        = [runLabelledLast] ∧
      runActive ≠ runLabelledLast) ∧
    (resolveSubagentTarget 1000 [runSpaceyLabel] (some " alpha")
        = { entry := none, error := some "Unknown subagent id: alpha" } ∧
      [runSpaceyLabel].filter
          (fun r => jsToLower (formatRunLabel r) == jsToLower " alpha")
        = [runSpaceyLabel]) := by
  decide

/-- C3 (amended): for every runs snapshot and every token that is non-empty, already
trimmed, **not the literal `last`**, non-numeric and colon-free, if exactly one run's
display label equals the token case-insensitively then resolution succeeds with that
run even when other labels have the token as a proper prefix; and if no exact label
match exists while two or more run labels start with the token case-insensitively,
resolution is an ambiguity error naming the token, never a silent pick. -/
theorem claim3_label_precedence_amended (now : Nat) (runs : List SubagentRunRecord)
    (t : String)
    (htrim : jsTrim t = t) (hne : t ≠ "") (hlast : t ≠ "last")
    (hdig : jsIsAllDigits t = false) (hcolon : jsContainsChar t ':' = false) :
    (∀ e, runs.filter (fun r => jsToLower (formatRunLabel r) == jsToLower t) = [e] →
      resolveSubagentTarget now runs (some t)
        = { entry := some e, error := none }) ∧
    (runs.filter (fun r => jsToLower (formatRunLabel r) == jsToLower t) = [] →
      2 ≤ (runs.filter
            (fun r => jsStartsWith (jsToLower (formatRunLabel r)) (jsToLower t))).length →
      resolveSubagentTarget now runs (some t)
        = { entry := none,
            error := some ("Ambiguous subagent label prefix: " ++ t) }) := by
  constructor
  · intro e he
    simp [resolveSubagentTarget, htrim, hne, hlast, hdig, hcolon, he]
  · intro h0 h2
    rcases hbp : runs.filter
        (fun r => jsStartsWith (jsToLower (formatRunLabel r)) (jsToLower t))
        with _ | ⟨f1, _ | ⟨f2, tl⟩⟩
    · rw [hbp] at h2
      simp at h2
    · rw [hbp] at h2
      simp at h2
    · simp [resolveSubagentTarget, htrim, hne, hlast, hdig, hcolon, h0, hbp]

/-- Witness for the amended C3 at the spec's own examples: labels `Scout`/`Scout2`
with token `scout` give an exact-match success; labels `Scout`/`Scouting` with token
`scou` give the ambiguity error. -/
theorem claim3_witness :
    resolveSubagentTarget 0 [runActive, runScout2] (some "scout")
      = { entry := some runActive, error := none } ∧
    resolveSubagentTarget 0 [runActive, runScouting] (some "scou")
      = { entry := none,
          error := some ("Ambiguous subagent label prefix: " ++ "scou") } := by
  constructor
  · exact (claim3_label_precedence_amended 0 [runActive, runScout2] "scout"
      (by decide) (by decide) (by decide) (by decide) (by decide)).1 runActive (by decide)
  · exact (claim3_label_precedence_amended 0 [runActive, runScouting] "scou"
      (by decide) (by decide) (by decide) (by decide) (by decide)).2 (by decide) (by decide)

/-! ## C4 — stop on an already-ended run -/

/-- C4: for every stop command with a specific target (not `all`/`*`) whose resolved
target has ended (a set, positive `endedAt`), the reply is the "already finished"
message — never a resolution error — and the effect trace is empty: no backend cancel,
no queue clearing, no session-store write, no cascaded stop. -/
theorem claim4_stop_ended_noop (env : StopEnv) (killAlias : Bool)
    (requesterKey : String) (runs : List SubagentRunRecord) (t : String)
    (e : SubagentRunRecord) (te : Nat)
    (hall : t ≠ "all") (hstar : t ≠ "*")
    (hres : (resolveSubagentTarget env.now runs (some t)).entry = some e)
    (hend : e.endedAt = some te) (hpos : 0 < te) :
    handleStop env killAlias requesterKey runs (some t)
      = (some (formatRunLabel e ++ " is already finished."), []) := by
  have hte : te ≠ 0 := by omega
  have hendT : endedTruthy e = true := by simp [endedTruthy, hend, hte]
  simp [handleStop, hall, hstar, hres, hendT]

/-- Witness for C4 at a concrete ended run addressed by index. -/
theorem claim4_witness :
    handleStop { now := 1000, storePath := "store", store := fun _ => none }
        false "agent:main" [runEnded] (some "1")
      = (some "Digger is already finished.", []) := by
  exact claim4_stop_ended_noop
    { now := 1000, storePath := "store", store := fun _ => none }
    false "agent:main" [runEnded] "1" runEnded 900
    (by decide) (by decide) (by decide) (by decide) (by decide)

/-! ## C5 — stop cascade on an active target -/

/-- The session entry the witnesses' store holds for `runActive`'s child key. -/
def sessionA : SessionEntry :=
  { sessionId := some "sess-1", sessionFile := some "file-a",
    abortedLastRun := false, updatedAt := 50 }

/-- A store environment for the stop witnesses. -/
def stopEnvA : StopEnv :=
  { now := 1000, storePath := "store",
    store := fun k => if k = "agent:childA" then some sessionA else none }

/-- C5: for every stop command against a specific active target, the handler emits, in
order: the backend cancel for the session's `sessionId` (when one is known and
non-empty), the clearing of the child's queues (keyed by the child session key and the
backend session id), the session-store write persisting `abortedLastRun := true`
(when a store entry exists), and finally the wholesale stop-by-requester call whose
requester key is the **child's own session key**, terminating grandchildren
transitively. -/
theorem claim5_stop_cascade (env : StopEnv) (killAlias : Bool)
    (requesterKey : String) (runs : List SubagentRunRecord) (t : String)
    (e : SubagentRunRecord)
    (hall : t ≠ "all") (hstar : t ≠ "*")
    (hres : (resolveSubagentTarget env.now runs (some t)).entry = some e)
    (hact : e.endedAt = none) :
    handleStop env killAlias requesterKey runs (some t)
      = (none,
          (match (env.store e.childSessionKey).bind (fun en => en.sessionId) with
            | some s => if s = "" then [] else [Effect.abortRun s]
            | none => [])
          ++ [Effect.clearQueues e.childSessionKey
                ((env.store e.childSessionKey).bind (fun en => en.sessionId))]
          ++ (match env.store e.childSessionKey with
              | some en =>
                [Effect.storeUpdate env.storePath e.childSessionKey
                  { en with abortedLastRun := true, updatedAt := env.now }]
              | none => [])
          ++ [Effect.stopForRequester e.childSessionKey]) := by
  have hendT : endedTruthy e = false := by simp [endedTruthy, hact]
  simp [handleStop, hall, hstar, hres, hendT]

/-- Witness for C5: the concrete cancel-clear-persist-cascade trace on `runActive`. -/
theorem claim5_witness :
    handleStop stopEnvA false "agent:main" [runActive] (some "1")
      = (none,
          [Effect.abortRun "sess-1",
           Effect.clearQueues "agent:childA" (some "sess-1"),
           Effect.storeUpdate "store" "agent:childA"
             { sessionId := some "sess-1", sessionFile := some "file-a",
               abortedLastRun := true, updatedAt := 1000 },
           Effect.stopForRequester "agent:childA"]) := by
  exact claim5_stop_cascade stopEnvA false "agent:main" [runActive] "1" runActive
    (by decide) (by decide) (by decide) (by decide)

/-! ## Shared characterizations of the `send`/`steer` handler -/

/-- The three pre-dispatch steer effects, in program order. -/
def steerPrologue (env : SendEnv) (e : SubagentRunRecord) : List Effect :=
  [Effect.markForSteerRestart e.runId]
    ++ (match sendTargetSessionId env e with
        | some s => [Effect.abortRun s]
        | none => [])
    ++ [Effect.clearQueues e.childSessionKey (sendTargetSessionId env e)]

theorem handleSend_steer_ok (env : SendEnv) (runs : List SubagentRunRecord)
    (t : String) (message : String) (e : SubagentRunRecord) (rid : Option String)
    (hmsg : message ≠ "")
    (hres : (resolveSubagentTarget env.now runs (some t)).entry = some e)
    (hact : e.endedAt = none)
    (hdisp : env.dispatch = DispatchResult.ok rid) :
    handleSend env true runs (some t) message
      = (some ("steered " ++ formatRunLabel e ++ " (run "
            ++ jsSlice (usedRunId rid env.idempotencyKey) 8 ++ ")."),
          steerPrologue env e
            ++ [Effect.gatewayDispatch message e.childSessionKey env.idempotencyKey,
                Effect.replaceAfterSteer e.runId (usedRunId rid env.idempotencyKey) e]) := by
  have hendT : endedTruthy e = false := by simp [endedTruthy, hact]
  simp [handleSend, hmsg, hres, hendT, hdisp, steerPrologue]

theorem handleSend_steer_fail (env : SendEnv) (runs : List SubagentRunRecord)
    (t : String) (message : String) (e : SubagentRunRecord) (emsg : String)
    (hmsg : message ≠ "")
    (hres : (resolveSubagentTarget env.now runs (some t)).entry = some e)
    (hact : e.endedAt = none)
    (hdisp : env.dispatch = DispatchResult.fail emsg) :
    handleSend env true runs (some t) message
      = (some ("send failed: " ++ emsg),
          steerPrologue env e
            ++ [Effect.gatewayDispatch message e.childSessionKey env.idempotencyKey]) := by
  have hendT : endedTruthy e = false := by simp [endedTruthy, hact]
  simp [handleSend, hmsg, hres, hendT, hdisp, steerPrologue]

theorem handleSend_send_ok (env : SendEnv) (runs : List SubagentRunRecord)
    (t : String) (message : String) (e : SubagentRunRecord) (rid : Option String)
    (hmsg : message ≠ "")
    (hres : (resolveSubagentTarget env.now runs (some t)).entry = some e)
    (hact : e.endedAt = none)
    (hdisp : env.dispatch = DispatchResult.ok rid) :
    handleSend env false runs (some t) message
      = (if env.waitStatus = some "timeout" then
          (some ("⏳ Subagent still running (run "
              ++ jsSlice (usedRunId rid env.idempotencyKey) 8 ++ ")."),
            [Effect.gatewayDispatch message e.childSessionKey env.idempotencyKey,
             Effect.gatewayWait (usedRunId rid env.idempotencyKey) 30000])
        else if env.waitStatus = some "error" then
          (some ("⚠️ Subagent error: " ++ env.waitError.getD "unknown error"
              ++ " (run " ++ jsSlice (usedRunId rid env.idempotencyKey) 8 ++ ")."),
            [Effect.gatewayDispatch message e.childSessionKey env.idempotencyKey,
             Effect.gatewayWait (usedRunId rid env.idempotencyKey) 30000])
        else
          (some ((((stripToolMessages env.history).getLast?).bind
                extractAssistantText).getD
              ("✅ Sent to " ++ formatRunLabel e ++ " (run "
                ++ jsSlice (usedRunId rid env.idempotencyKey) 8 ++ ").")),
            [Effect.gatewayDispatch message e.childSessionKey env.idempotencyKey,
             Effect.gatewayWait (usedRunId rid env.idempotencyKey) 30000,
             Effect.gatewayHistory e.childSessionKey 50])) := by
  have hendT : endedTruthy e = false := by simp [endedTruthy, hact]
  by_cases hw : env.waitStatus = some "timeout"
  · simp [handleSend, hmsg, hres, hendT, hdisp, hw]
  · by_cases he : env.waitStatus = some "error"
    · simp [handleSend, hmsg, hres, hendT, hdisp, hw, he]
    · simp [handleSend, hmsg, hres, hendT, hdisp, hw, he]

/-! ## C6 — steer ordering -/

/-- C6: in every steer against an active run, the effect trace is exactly
`markForSteerRestart` on the target's run id, then the backend interrupt (present
exactly when a backend session id is known), then the queue clearing for the child
session key and backend session id, then the dispatch of the replacement message —
and the registry replacement of the old run id (with the resolved record as structural
fallback) appears only after the dispatch, and only when the dispatch succeeds. -/
theorem claim6_steer_ordering (env : SendEnv) (runs : List SubagentRunRecord)
    (t : String) (message : String) (e : SubagentRunRecord)
    (hmsg : message ≠ "")
    (hres : (resolveSubagentTarget env.now runs (some t)).entry = some e)
    (hact : e.endedAt = none) :
    (∀ rid, env.dispatch = DispatchResult.ok rid →
      (handleSend env true runs (some t) message).2
        = [Effect.markForSteerRestart e.runId]
            ++ (match sendTargetSessionId env e with
                | some s => [Effect.abortRun s]
                | none => [])
            ++ [Effect.clearQueues e.childSessionKey (sendTargetSessionId env e),
                Effect.gatewayDispatch message e.childSessionKey env.idempotencyKey,
                Effect.replaceAfterSteer e.runId (usedRunId rid env.idempotencyKey) e]) ∧
    (∀ emsg, env.dispatch = DispatchResult.fail emsg →
      (handleSend env true runs (some t) message).2
        = [Effect.markForSteerRestart e.runId]
            ++ (match sendTargetSessionId env e with
                | some s => [Effect.abortRun s]
                | none => [])
            ++ [Effect.clearQueues e.childSessionKey (sendTargetSessionId env e),
                Effect.gatewayDispatch message e.childSessionKey env.idempotencyKey]
        ∧ ∀ prev next fb,
            Effect.replaceAfterSteer prev next fb
              ∉ (handleSend env true runs (some t) message).2) := by
  constructor
  · intro rid hdisp
    rw [handleSend_steer_ok env runs t message e rid hmsg hres hact hdisp]
    simp [steerPrologue]
  · intro emsg hdisp
    rw [handleSend_steer_fail env runs t message e emsg hmsg hres hact hdisp]
    constructor
    · simp [steerPrologue]
    · intro prev next fb
      simp [steerPrologue]
      rcases sendTargetSessionId env e with _ | s <;> simp

/-- A send/steer environment whose dispatch succeeds with a fresh backend run id. -/
def sendEnvOk : SendEnv :=
  { now := 1000,
    store := fun k => if k = "agent:childA" then some sessionA else none,
    idempotencyKey := "idem-0001", dispatch := DispatchResult.ok (some "newrun123"),
    waitStatus := some "done", waitError := none,
    history := [{ role := "user", content := "hi" },
                { role := "assistant", content := "All done." }] }

/-- Witness for C6: the concrete mark-interrupt-clear-dispatch-replace trace. -/
theorem claim6_witness :
    (handleSend sendEnvOk true [runActive] (some "1") "go").2
      = [Effect.markForSteerRestart "run-a",
         Effect.abortRun "sess-1",
         Effect.clearQueues "agent:childA" (some "sess-1"),
         Effect.gatewayDispatch "go" "agent:childA" "idem-0001",
         Effect.replaceAfterSteer "run-a" "newrun123" runActive] := by
  exact (claim6_steer_ordering sendEnvOk [runActive] "1" "go" runActive
    (by decide) (by decide) (by decide)).1 (some "newrun123") rfl

/-! ## C10 — dispatch run id and idempotency-key fallback -/

/-- C10: after every successful dispatch, the run id used afterwards — in the bounded
wait call, in the post-steer registry replacement, and truncated to 8 characters in the
reply — is the backend's `runId` when a (non-empty) one is present, and otherwise the
caller-generated idempotency key; the command never proceeds without some run id. -/
theorem claim10_run_id_fallback (env : SendEnv) (runs : List SubagentRunRecord)
    (t : String) (message : String) (e : SubagentRunRecord) (rid : Option String)
    (hmsg : message ≠ "")
    (hres : (resolveSubagentTarget env.now runs (some t)).entry = some e)
    (hact : e.endedAt = none)
    (hdisp : env.dispatch = DispatchResult.ok rid) (hne : rid ≠ some "") :
    usedRunId rid env.idempotencyKey = rid.getD env.idempotencyKey ∧
    Effect.replaceAfterSteer e.runId (rid.getD env.idempotencyKey) e
        ∈ (handleSend env true runs (some t) message).2 ∧
    (handleSend env true runs (some t) message).1
        = some ("steered " ++ formatRunLabel e ++ " (run "
            ++ jsSlice (rid.getD env.idempotencyKey) 8 ++ ").") ∧
    Effect.gatewayWait (rid.getD env.idempotencyKey) 30000
        ∈ (handleSend env false runs (some t) message).2 ∧
    (env.waitStatus = some "timeout" →
      (handleSend env false runs (some t) message).1
        = some ("⏳ Subagent still running (run "
            ++ jsSlice (rid.getD env.idempotencyKey) 8 ++ ").")) := by
  have hid : usedRunId rid env.idempotencyKey = rid.getD env.idempotencyKey := by
    cases rid with
    | none => rfl
    | some s =>
      have hs : s ≠ "" := fun h => hne (by rw [h])
      simp [usedRunId, hs]
  have hsteer := handleSend_steer_ok env runs t message e rid hmsg hres hact hdisp
  have hsend := handleSend_send_ok env runs t message e rid hmsg hres hact hdisp
  refine ⟨hid, ?_, ?_, ?_, ?_⟩
  · rw [hsteer]
    simp [steerPrologue, hid]
  · rw [hsteer, hid]
  · rw [hsend, hid]
    by_cases hw : env.waitStatus = some "timeout"
    · simp [hw]
    · by_cases he : env.waitStatus = some "error"
      · simp [hw, he]
      · simp [hw, he]
  · intro hw
    rw [hsend, hid, if_pos hw]

/-- A send/steer environment whose dispatch succeeds without returning a `runId`. -/
def sendEnvNoRid : SendEnv :=
  { now := 1000,
    store := fun k => if k = "agent:childA" then some sessionA else none,
    idempotencyKey := "idem-0002", dispatch := DispatchResult.ok none,
    waitStatus := some "done", waitError := none,
    history := [{ role := "user", content := "hi" },
                { role := "assistant", content := "All done." }] }

/-- Witness for C10 at a backend that omits `runId`: the idempotency key is used. -/
theorem claim10_witness :
    usedRunId none "idem-0002" = (none : Option String).getD "idem-0002" ∧
    Effect.replaceAfterSteer "run-a" "idem-0002" runActive
        ∈ (handleSend sendEnvNoRid true [runActive] (some "1") "go").2 ∧
    (handleSend sendEnvNoRid true [runActive] (some "1") "go").1
        = some ("steered " ++ formatRunLabel runActive ++ " (run "
            ++ jsSlice "idem-0002" 8 ++ ").") ∧
    Effect.gatewayWait "idem-0002" 30000
        ∈ (handleSend sendEnvNoRid false [runActive] (some "1") "go").2 ∧
    (sendEnvNoRid.waitStatus = some "timeout" →
      (handleSend sendEnvNoRid false [runActive] (some "1") "go").1
        = some ("⏳ Subagent still running (run " ++ jsSlice "idem-0002" 8 ++ ").")) := by
  exact claim10_run_id_fallback sendEnvNoRid [runActive] "1" "go" runActive none
    (by decide) (by decide) (by decide) rfl (by simp)

/-! ## C8 — send round-trip reply -/

/-- A send environment whose successful wait is followed by a history fetch that ends
with a user message, after an earlier assistant message. -/
def sendEnvTrailingUser : SendEnv :=
  { now := 1000,
    store := fun k => if k = "agent:childA" then some sessionA else none,
    idempotencyKey := "idem-0003", dispatch := DispatchResult.ok (some "newrun123"),
    waitStatus := some "done", waitError := none,
    history := [{ role := "assistant", content := "A" },
                { role := "user", content := "B" }] }

/-- Counterexample to C8 as frozen: the claim promises the reply equals the most recent
**assistant** utterance in the post-send history fetch whenever that extraction yields
something, but the code extracts only from the **last** tool-stripped message. When the
fetched history ends with a user message after an assistant message, the most recent
assistant utterance exists (`"A"`), yet the code replies with the fallback
acknowledgment. -/
theorem claim8_counterexample :
    (handleSend sendEnvTrailingUser false [runActive] (some "1") "hi").1
      = some "✅ Sent to Scout (run newrun12)." ∧
    mostRecentAssistantUtterance sendEnvTrailingUser.history = some "A" ∧
    some "✅ Sent to Scout (run newrun12)." ≠ (some "A" : Option String) := by
  decide

/-- C8 (amended): for every send (non-steer) command that dispatches successfully and
whose bounded wait returns status `done`, the reply equals the assistant utterance
extracted from the **last** message of the tool-stripped post-send history fetch, and
equals the fallback acknowledgment string — naming the run label and the truncated run
id — when that last message yields no assistant utterance (or the fetch is empty). -/
theorem claim8_send_reply_amended (env : SendEnv) (runs : List SubagentRunRecord)
    (t : String) (message : String) (e : SubagentRunRecord) (rid : Option String)
    (hmsg : message ≠ "")
    (hres : (resolveSubagentTarget env.now runs (some t)).entry = some e)
    (hact : e.endedAt = none)
    (hdisp : env.dispatch = DispatchResult.ok rid)
    (hwait : env.waitStatus = some "done") :
    handleSend env false runs (some t) message
      = (some ((((stripToolMessages env.history).getLast?).bind
              extractAssistantText).getD
            ("✅ Sent to " ++ formatRunLabel e ++ " (run "
              ++ jsSlice (usedRunId rid env.idempotencyKey) 8 ++ ").")),
          [Effect.gatewayDispatch message e.childSessionKey env.idempotencyKey,
           Effect.gatewayWait (usedRunId rid env.idempotencyKey) 30000,
           Effect.gatewayHistory e.childSessionKey 50]) := by
  rw [handleSend_send_ok env runs t message e rid hmsg hres hact hdisp]
  rw [hwait]
  simp

/-- Witness for the amended C8: a history ending in an assistant message makes its
normalized text the reply. -/
theorem claim8_witness :
    handleSend sendEnvOk false [runActive] (some "1") "hi"
      = (some "All done.",
          [Effect.gatewayDispatch "hi" "agent:childA" "idem-0001",
           Effect.gatewayWait "newrun123" 30000,
           Effect.gatewayHistory "agent:childA" 50]) := by
  exact claim8_send_reply_amended sendEnvOk [runActive] "1" "hi" runActive
    (some "newrun123") (by decide) (by decide) (by decide) rfl rfl

/-! ## C7 — log argument parsing -/

/-- An active run whose display label is the word `tools`. -/
def runToolsLabel : SubagentRunRecord :=
  { runId := "run-t", childSessionKey := "agent:childT", requesterSessionKey := "agent:main",
    label := some "tools", task := "tooling", createdAt := 3, startedAt := some 4,
    endedAt := none }

/-- Counterexample to C7 as frozen. The claim reads the history limit (and the `tools`
switch) off the arguments supplied **after** the target, but the code scans **all**
remaining tokens, the target included: (1) `log 1` addresses the first listed run by
index but also fetches with limit 1 instead of the default 20; (2) `log tools`
addresses a run labelled `tools` but also switches tool-call messages on, so a
tool-only history renders a line instead of `(no messages)`. -/
theorem claim7_counterexample :
    (handleLog { now := 1000, history := [] } [runActive] ["1"]
        = (some "📜 Subagent log: Scout\n(no messages)",
            [Effect.gatewayHistory "agent:childA" 1]) ∧
      specLogLimit ["1"] = 20) ∧
    (handleLog { now := 1000, history := [{ role := "tool", content := "x" }] }
          [runToolsLabel] ["tools"]
        = (some "📜 Subagent log: tools\nUser: x",
            [Effect.gatewayHistory "agent:childT" 20]) ∧
      specLogIncludeTools ["tools"] = false ∧
      formatLogLines (stripToolMessages [{ role := "tool", content := "x" }]) = []) := by
  decide

/-- C7 (amended): for every log command whose target resolves, the history limit passed
to the backend transcript fetch is the first all-digit token among **all** the remaining
tokens — the target token itself included — clamped to `[1, 200]`, defaulting to 20 when
no token is all digits; and any remaining token (the target included) case-insensitively
equal to `tools` switches tool-call messages from excluded (default) to included in the
rendered log. -/
theorem claim7_log_args_amended (env : LogEnv) (runs : List SubagentRunRecord)
    (restTokens : List String) (target : String) (e : SubagentRunRecord)
    (hhead : restTokens.head? = some target)
    (hres : (resolveSubagentTarget env.now runs (some target)).entry = some e) :
    handleLog env runs restTokens
      = (some
          (if (formatLogLines (if logIncludeTools restTokens then env.history
              else stripToolMessages env.history)).isEmpty then
            ("📜 Subagent log: " ++ formatRunLabel e) ++ "\n(no messages)"
          else
            jsJoin "\n" (("📜 Subagent log: " ++ formatRunLabel e)
              :: formatLogLines (if logIncludeTools restTokens then env.history
                  else stripToolMessages env.history))),
          [Effect.gatewayHistory e.childSessionKey (logLimit restTokens)]) ∧
    (1 ≤ logLimit restTokens ∧ logLimit restTokens ≤ 200) ∧
    (restTokens.find? (fun tok => tok != "" && jsIsAllDigits tok) = none →
      logLimit restTokens = 20) ∧
    (∀ tok, restTokens.find? (fun tok2 => tok2 != "" && jsIsAllDigits tok2) = some tok →
      logLimit restTokens = min 200 (max 1 (jsParseDigits tok))) := by
  refine ⟨?_, ?_, ?_, ?_⟩
  · simp [handleLog, hhead, hres]
  · unfold logLimit
    rcases restTokens.find? (fun tok => tok != "" && jsIsAllDigits tok) with _ | tok
    · simp
    · simp only []
      omega
  · intro hfind
    simp [logLimit, hfind]
  · intro tok hfind
    simp [logLimit, hfind]

/-- Witness for the amended C7: `log scout 50` fetches with the clamped explicit
limit 50. -/
theorem claim7_witness :
    handleLog { now := 1000, history := [] } [runActive] ["scout", "50"]
      = (some "📜 Subagent log: Scout\n(no messages)",
          [Effect.gatewayHistory "agent:childA" 50]) ∧
    (1 ≤ logLimit ["scout", "50"] ∧ logLimit ["scout", "50"] ≤ 200) := by
  have h := claim7_log_args_amended { now := 1000, history := [] } [runActive]
    ["scout", "50"] "scout" runActive (by decide) (by decide)
  exact ⟨h.1, h.2.1⟩
